import Mathlib

/-
Shallow embedding of `src/rust_p2p_chat/src/main.rs` (a point-to-point
TLS + WebSocket chat with a listener role and an initiator role).

Modelling conventions:
  * Byte buffers (`Vec<u8>`) are `List Nat`.
  * `Result<T, E>` is `Except String T`; the error string stands for the
    boxed error's display text.
  * The async `tokio::select!` pump in `handle_connection` is embedded as a
    step function on the sequence of events the select loop observes
    (a local stdin line / EOF / read error, or an inbound WebSocket message /
    error / stream end).  Each observed event is paired with the outcome of
    the send the handler performs for it, if any (`ws_sender.send(..).await`).
  * `println!` / `eprintln!` output is collected into a `List String`
    (stdout and stderr merged, in program order).
  * Fallible setup steps of `run_server` / `run_client` are inputs
    (an `Except` outcome per step), and the functions record which setup
    steps were actually invoked, so that short-circuiting is observable.
-/

namespace P2PChat

/-- A WebSocket close frame (`tungstenite::protocol::CloseFrame`): a close
code and a reason string. -/
structure CloseFrame where
  code : Nat
  reason : String
deriving Repr, DecidableEq

/-- `tokio_tungstenite::tungstenite::Message`: the frame kinds of the framed
session.  `Frame` is the raw-frame variant; it and `Binary`/`Pong` are the
kinds the pump's wildcard arm ignores. -/
inductive Message where
  | Text (payload : String)
  | Binary (payload : List Nat)
  | Ping (payload : List Nat)
  | Pong (payload : List Nat)
  | Close (frame : Option CloseFrame)
  | Frame (raw : List Nat)
deriving Repr, DecidableEq

/-- One event observed by the `tokio::select!` loop in `handle_connection`:
either the stdin arm fires (`line_result = stdin.next_line()`) or the
WebSocket arm fires (`msg_result = ws_receiver.next()`). -/
inductive PumpEvent where
  | localLine (line : String)
  | localEof
  | localErr (e : String)
  | wsMsg (m : Message)
  | wsErr (e : String)
  | wsClosed
deriving Repr, DecidableEq

/-- The pump's control state: `Open` while the loop keeps iterating,
`Terminated` once a `break` fires. -/
inductive PumpState where
  | Open
  | Terminated
deriving Repr, DecidableEq

/-- What one iteration of the select loop body does: frames passed to
`ws_sender.send` (attempted sends), lines printed, and the resulting
control state. -/
structure StepResult where
  sends : List Message
  output : List String
  state : PumpState
deriving Repr, DecidableEq

/-- Rust `char::is_whitespace`: the Unicode White_Space property —
U+0009–U+000D, U+0020, U+0085, U+00A0, U+1680, U+2000–U+200A, U+2028,
U+2029, U+202F, U+205F and U+3000. -/
def isRustWhitespace (c : Char) : Bool :=
  let n := c.toNat
  decide ((0x9 ≤ n ∧ n ≤ 0xD) ∨ n = 0x20 ∨ n = 0x85 ∨ n = 0xA0 ∨ n = 0x1680 ∨
    (0x2000 ≤ n ∧ n ≤ 0x200A) ∨ n = 0x2028 ∨ n = 0x2029 ∨ n = 0x202F ∨
    n = 0x205F ∨ n = 0x3000)

/-- Embedding of Rust `str::trim` over the string's character list: strip
leading and trailing Unicode whitespace. -/
def trimChars (l : List Char) : List Char :=
  ((l.dropWhile isRustWhitespace).reverse.dropWhile isRustWhitespace).reverse

/-- Embedding of the guard `line.trim().is_empty()` of `handle_connection`. -/
def trimIsEmpty (s : String) : Bool :=
  (trimChars s.data).isEmpty

/-- One iteration of the `loop { tokio::select! { .. } }` body of
`handle_connection`, given the event that fired and the outcome of the
send the corresponding arm performs (ignored by arms that do not send). -/
def step (ev : PumpEvent) (sendRes : Except String Unit) : StepResult :=
  match ev with
  | .localLine line =>
      if trimIsEmpty line then
        ⟨[], [], .Open⟩
      else
        match sendRes with
        | .ok _ => ⟨[Message.Text line], [], .Open⟩
        | .error e => ⟨[Message.Text line], [s!"メッセージ送信エラー: {e}"], .Terminated⟩
  | .localEof => ⟨[], ["標準入力が閉じられました。"], .Terminated⟩
  | .localErr e => ⟨[], [s!"標準入力読み取りエラー: {e}"], .Terminated⟩
  | .wsMsg m =>
      match m with
      | .Text t => ⟨[], [s!"相手: {t}"], .Open⟩
      | .Close (some f) =>
          let c := f.code
          let r := f.reason
          ⟨[], [s!"相手が接続を切断しました: {c} - {r}"], .Terminated⟩
      | .Close none => ⟨[], ["相手が接続を切断しました。"], .Terminated⟩
      | .Ping d =>
          match sendRes with
          | .ok _ => ⟨[Message.Pong d], [], .Open⟩
          | .error e => ⟨[Message.Pong d], [s!"Pong送信エラー: {e}"], .Terminated⟩
      | _ => ⟨[], [], .Open⟩
  | .wsErr e => ⟨[], [s!"WebSocketエラー: {e}"], .Terminated⟩
  | .wsClosed => ⟨[], ["WebSocket接続が閉じられました。"], .Terminated⟩

/-- An entry of the pump's interleaved action trace: the loop observing an
event, or the loop handing a frame to `ws_sender.send`. -/
inductive Action where
  | observe (ev : PumpEvent)
  | send (m : Message)
deriving Repr, DecidableEq

/-- Run the select loop over the sequence of events it observes (each paired
with the outcome of the send its arm performs, if any).  Returns the
interleaved action trace and the printed output.  The loop stops consuming
events as soon as a step `break`s. -/
def runPump : List (PumpEvent × Except String Unit) → List Action × List String
  | [] => ([], [])
  | (ev, r) :: rest =>
      let s := step ev r
      if s.state = PumpState.Open then
        let tail := runPump rest
        (Action.observe ev :: (s.sends.map Action.send ++ tail.1), s.output ++ tail.2)
      else
        (Action.observe ev :: s.sends.map Action.send, s.output)

/-- The full body of `handle_connection`: the opening banner, the select
loop, and the closing banner. -/
def handle_connection (trace : List (PumpEvent × Except String Unit)) : List String :=
  ["チャットを開始します。メッセージを入力してEnterキーを押してください。"]
    ++ (runPump trace).2
    ++ ["チャット終了。"]

/-- `rustls::client::danger::ServerCertVerified` — a zero-field token
produced by `ServerCertVerified::assertion()`. -/
inductive ServerCertVerified where
  | assertion
deriving Repr, DecidableEq

/-- `rustls::client::danger::HandshakeSignatureValid` — a zero-field token
produced by `HandshakeSignatureValid::assertion()`. -/
inductive HandshakeSignatureValid where
  | assertion
deriving Repr, DecidableEq

/-- `rustls::DigitallySignedStruct`: a signature scheme identifier and the
signature bytes. -/
structure DigitallySignedStruct where
  scheme : Nat
  sig : List Nat
deriving Repr, DecidableEq

namespace NoopServerCertVerifier

/-- `NoopServerCertVerifier::verify_server_cert`: ignores the end-entity
certificate, the intermediate chain, the server name, the OCSP response and
the current time, and unconditionally returns `Ok(ServerCertVerified)`. -/
def verify_server_cert (_endEntity : List Nat) (_intermediates : List (List Nat))
    (_serverName : String) (_ocspResponse : List Nat) (_now : Nat) :
    Except String ServerCertVerified :=
  .ok .assertion

/-- `NoopServerCertVerifier::verify_tls12_signature`: unconditionally
returns `Ok(HandshakeSignatureValid)`. -/
def verify_tls12_signature (_message : List Nat) (_cert : List Nat)
    (_dss : DigitallySignedStruct) : Except String HandshakeSignatureValid :=
  .ok .assertion

/-- `NoopServerCertVerifier::verify_tls13_signature`: unconditionally
returns `Ok(HandshakeSignatureValid)`. -/
def verify_tls13_signature (_message : List Nat) (_cert : List Nat)
    (_dss : DigitallySignedStruct) : Except String HandshakeSignatureValid :=
  .ok .assertion

end NoopServerCertVerifier

/-- The pieces of the `rustls::ClientConfig` that `run_client` builds: an
empty root store, the dangerous certificate-verifier override, and the
ALPN protocol list. -/
structure ClientConfigModel where
  rootCertificates : List (List Nat)
  certVerifier : List Nat → List (List Nat) → String → List Nat → Nat →
    Except String ServerCertVerified
  alpnProtocols : List (List Nat)

/-- The client TLS configuration of `run_client`: empty
`RootCertStore`, `NoopServerCertVerifier` installed via
`config.dangerous().set_certificate_verifier`, and ALPN `"http/1.1"`
(the byte string `http/1.1`). -/
def client_config : ClientConfigModel :=
  { rootCertificates := []
  , certVerifier := NoopServerCertVerifier.verify_server_cert
  , alpnProtocols := [[104, 116, 116, 112, 47, 49, 46, 49]] }

/-- A bind/listen address (`std::net::SocketAddr`), as host and port. -/
structure SockAddr where
  host : String
  port : Nat
deriving Repr, DecidableEq

/-- The outcome of each fallible setup operation along `run_server`'s path:
`generate_simple_self_signed` (line 122), `with_single_cert` (line 129),
`TcpListener::bind` (line 134), `tls_acceptor.accept` (line 141) and
`accept_async` (line 144).  `TcpListener::accept`'s outcome is carried by
the connection queue instead (see `run_server`). -/
structure ServerSetup where
  certGen : Except String Unit
  singleCert : Except String Unit
  bindSock : Except String Unit
  tlsAccept : Except String Unit
  wsAccept : Except String Unit
deriving Repr

/-- The setup operations `run_server` / `run_client` may invoke, in source
order; recorded so that short-circuiting on error is observable. -/
inductive SetupStep where
  | certGen
  | singleCert
  | bindSock
  | acceptConn
  | tlsAccept
  | wsAccept
  | urlParse
  | hostExtract
  | tcpConnect
  | serverName
  | tlsConnect
  | wsConnect
  | pump
deriving Repr, DecidableEq

/-- The display lines `run_server` prints before certificate generation:
the startup banner and the best-effort local/global IP discovery report
(lines 94–119).  `ipL` is the first `get_local_ip` outcome, `ipG` the
`get_global_ip` outcome, and `ipL2` the second `get_local_ip` call made
inside the success branch of the global-IP report (line 112, with
`unwrap_or("LOCAL_IP")`). -/
def serverIpReport (addr : SockAddr) (ipL ipG ipL2 : Except String String) :
    List String :=
  let h := addr.host
  let p := addr.port
  [s!"サーバーを起動します: {h}:{p}"]
  ++ (match ipL with
      | .ok ip =>
          [s!"ローカルIPアドレス: {ip}",
           s!"ローカルネットワーク内からの接続用URL: wss://{ip}:{p}"]
      | .error _ => [])
  ++ ["グローバルIPアドレスを取得中..."]
  ++ (match ipG with
      | .ok gip =>
          let lip := match ipL2 with | .ok ip => ip | .error _ => "LOCAL_IP"
          [s!"グローバルIPアドレス: {gip}",
           s!"外部からの接続用URL: wss://{gip}:{p}",
           "注意: 以下の設定が必要です:",
           s!"  1. Windowsファイアウォールでポート{p}を開放",
           s!"  2. ルーターでポートフォワーディング設定 (外部{p}→内部{lip}:{p})",
           s!"  3. ISPがポート{p}をブロックしていないことを確認"]
      | .error e =>
          [s!"グローバルIPアドレスの取得に失敗しました: {e}",
           "ローカルアドレスでのみ接続を受け付けます"])

/-- `run_server`: IP report, certificate generation, TLS server config,
bind, a single `listener.accept()`, TLS accept, WebSocket accept, then
`handle_connection`.  `conns` is the queue of inbound connection attempts
(each an accept outcome carrying a connection identifier); `trace`
gives the pump events of each connection.  Returns the printed output, the
setup steps actually invoked, and `none` when the server is still blocked
in `accept` (empty queue), otherwise `some` of the `Result` it returns. -/
def run_server (addr : SockAddr) (ipL ipG ipL2 : Except String String)
    (o : ServerSetup) (conns : List (Except String Nat))
    (trace : Nat → List (PumpEvent × Except String Unit)) :
    List String × List SetupStep × Option (Except String Unit) :=
  let disp := serverIpReport addr ipL ipG ipL2
  match o.certGen with
  | .error e => (disp, [SetupStep.certGen], some (.error e))
  | .ok _ =>
  match o.singleCert with
  | .error e => (disp, [SetupStep.certGen, SetupStep.singleCert], some (.error e))
  | .ok _ =>
  match o.bindSock with
  | .error e =>
      (disp, [SetupStep.certGen, SetupStep.singleCert, SetupStep.bindSock],
       some (.error e))
  | .ok _ =>
  let disp := disp ++ ["接続待受中... Ctrl+Cで終了"]
  match conns with
  | [] =>
      (disp,
       [SetupStep.certGen, SetupStep.singleCert, SetupStep.bindSock,
        SetupStep.acceptConn], none)
  | .error e :: _ =>
      (disp,
       [SetupStep.certGen, SetupStep.singleCert, SetupStep.bindSock,
        SetupStep.acceptConn], some (.error e))
  | .ok c :: _ =>
  let disp := disp ++ [s!"クライアントが接続しました: {c}"]
  match o.tlsAccept with
  | .error e =>
      (disp,
       [SetupStep.certGen, SetupStep.singleCert, SetupStep.bindSock,
        SetupStep.acceptConn, SetupStep.tlsAccept], some (.error e))
  | .ok _ =>
  match o.wsAccept with
  | .error e =>
      (disp,
       [SetupStep.certGen, SetupStep.singleCert, SetupStep.bindSock,
        SetupStep.acceptConn, SetupStep.tlsAccept, SetupStep.wsAccept],
       some (.error e))
  | .ok _ =>
      (disp ++ ["WebSocket接続が確立しました。"] ++ handle_connection (trace c),
       [SetupStep.certGen, SetupStep.singleCert, SetupStep.bindSock,
        SetupStep.acceptConn, SetupStep.tlsAccept, SetupStep.wsAccept,
        SetupStep.pump],
       some (.ok ()))

/-- A parsed `url::Url`, restricted to what `run_client` reads from it:
`host_str()` and `port()`. -/
structure UrlModel where
  host : Option String
  port : Option Nat
deriving Repr, DecidableEq

/-- The outcome of each fallible setup operation along `run_client`'s path:
`Url::parse` (line 167), `TcpStream::connect` (line 173),
`ServerName::try_from` (line 174), `connector.connect` (line 175) and
`client_async` (line 178).  The `host_str().ok_or(..)` check of line 168
is decided by the parsed URL itself. -/
structure ClientSetup where
  urlParse : Except String UrlModel
  tcpConnect : Except String Unit
  srvName : Except String Unit
  tlsConnect : Except String Unit
  wsConnect : Except String Unit
deriving Repr

/-- `run_client`: builds `client_config`, parses the URI, extracts host and
port (default 8080), connects, runs the TLS and WebSocket handshakes, then
`handle_connection`.  Returns the printed output, the setup steps actually
invoked, and the `Result` it returns. -/
def run_client (uri : String) (o : ClientSetup)
    (trace : List (PumpEvent × Except String Unit)) :
    List String × List SetupStep × Except String Unit :=
  let disp := [s!"サーバーに接続します: {uri}"]
  match o.urlParse with
  | .error e => (disp, [SetupStep.urlParse], .error e)
  | .ok url =>
  match url.host with
  | none =>
      (disp, [SetupStep.urlParse, SetupStep.hostExtract],
       .error "URIにホスト名がありません")
  | some _ =>
  match o.tcpConnect with
  | .error e =>
      (disp, [SetupStep.urlParse, SetupStep.hostExtract, SetupStep.tcpConnect],
       .error e)
  | .ok _ =>
  match o.srvName with
  | .error e =>
      (disp,
       [SetupStep.urlParse, SetupStep.hostExtract, SetupStep.tcpConnect,
        SetupStep.serverName], .error e)
  | .ok _ =>
  match o.tlsConnect with
  | .error e =>
      (disp,
       [SetupStep.urlParse, SetupStep.hostExtract, SetupStep.tcpConnect,
        SetupStep.serverName, SetupStep.tlsConnect], .error e)
  | .ok _ =>
  match o.wsConnect with
  | .error e =>
      (disp,
       [SetupStep.urlParse, SetupStep.hostExtract, SetupStep.tcpConnect,
        SetupStep.serverName, SetupStep.tlsConnect, SetupStep.wsConnect],
       .error e)
  | .ok _ =>
      (disp ++ ["WebSocket接続が確立しました。"] ++ handle_connection trace,
       [SetupStep.urlParse, SetupStep.hostExtract, SetupStep.tcpConnect,
        SetupStep.serverName, SetupStep.tlsConnect, SetupStep.wsConnect,
        SetupStep.pump],
       .ok ())

/-- The exit-code plumbing of `main` for a finished role run: on
`Err(e)` it prints to stderr and calls `std::process::exit(1)`; on `Ok`
it falls through to `Ok(())`, which is process exit code 0. -/
def exitCodeOf : Except String Unit → Nat
  | .ok _ => 0
  | .error _ => 1

/-- C1: every call to the initiator's certificate verifier succeeds —
`verify_server_cert`, `verify_tls12_signature` and `verify_tls13_signature`
of `NoopServerCertVerifier` return `Ok` for all certificates, chains,
server names, OCSP responses, times, messages and signatures, and this
verifier is the one installed in the client TLS configuration, so the
initiator's transport handshake never rejects a remote certificate. -/
theorem noop_verifier_accepts_all (endEntity : List Nat)
    (intermediates : List (List Nat)) (sname : String) (ocsp : List Nat)
    (now : Nat) (msg12 cert12 : List Nat) (dss12 : DigitallySignedStruct)
    (msg13 cert13 : List Nat) (dss13 : DigitallySignedStruct) :
    NoopServerCertVerifier.verify_server_cert endEntity intermediates sname ocsp now
      = .ok .assertion ∧
    NoopServerCertVerifier.verify_tls12_signature msg12 cert12 dss12
      = .ok .assertion ∧
    NoopServerCertVerifier.verify_tls13_signature msg13 cert13 dss13
      = .ok .assertion ∧
    client_config.certVerifier = NoopServerCertVerifier.verify_server_cert :=
  ⟨rfl, rfl, rfl, rfl⟩

/-- C2: an inbound `Ping` with payload `d` makes the pump attempt exactly one
`Pong` send carrying the same payload byte-for-byte; if that send succeeds
the pump stays `Open`, and if it fails the pump transitions to
`Terminated`. -/
theorem ping_pong_echo (d : List Nat) (r : Except String Unit) :
    (step (PumpEvent.wsMsg (Message.Ping d)) r).sends = [Message.Pong d] ∧
    (step (PumpEvent.wsMsg (Message.Ping d)) r).state
      = (match r with
         | .ok _ => PumpState.Open
         | .error _ => PumpState.Terminated) := by
  cases r <;> exact ⟨rfl, rfl⟩

/-- C4: receiving a `Close` frame (with or without code/reason) prints a
disconnect notice, moves the pump to `Terminated`, sends no frame during
that step, and the pump's whole remaining action trace is just the
observation of the `Close` — no frame of any kind is sent afterward,
whatever events would have followed. -/
theorem close_frame_terminates (cf : Option CloseFrame)
    (r : Except String Unit) (rest : List (PumpEvent × Except String Unit)) :
    runPump ((PumpEvent.wsMsg (Message.Close cf), r) :: rest)
      = ([Action.observe (PumpEvent.wsMsg (Message.Close cf))],
         (step (PumpEvent.wsMsg (Message.Close cf)) r).output) ∧
    (step (PumpEvent.wsMsg (Message.Close cf)) r).state = PumpState.Terminated ∧
    (step (PumpEvent.wsMsg (Message.Close cf)) r).sends = [] ∧
    (step (PumpEvent.wsMsg (Message.Close cf)) r).output
      = (match cf with
         | some f =>
             match f with
             | ⟨c, reason⟩ => [s!"相手が接続を切断しました: {c} - {reason}"]
         | none => ["相手が接続を切断しました。"]) := by
  cases cf <;> exact ⟨rfl, rfl, rfl, rfl⟩

/-- C7: a local line whose trimmed form is empty produces no send and no
output and leaves the pump `Open`; the pump simply continues with the rest
of its event sequence, still servicing both sources. -/
theorem blank_line_no_frame (line : String) (r : Except String Unit)
    (rest : List (PumpEvent × Except String Unit))
    (h : trimIsEmpty line = true) :
    step (PumpEvent.localLine line) r = ⟨[], [], PumpState.Open⟩ ∧
    runPump ((PumpEvent.localLine line, r) :: rest)
      = (Action.observe (PumpEvent.localLine line) :: (runPump rest).1,
         (runPump rest).2) := by
  have hs : step (PumpEvent.localLine line) r = ⟨[], [], PumpState.Open⟩ := by
    simp [step, h]
  refine ⟨hs, ?_⟩
  simp [runPump, hs]

/-- Witness for C7 at the concrete whitespace-only line `"   "`. -/
theorem blank_line_no_frame_witness :
    trimIsEmpty "   " = true ∧
    (step (PumpEvent.localLine "   ") (Except.ok ()) = ⟨[], [], PumpState.Open⟩ ∧
     runPump [(PumpEvent.localLine "   ", Except.ok ())]
       = (Action.observe (PumpEvent.localLine "   ") :: (runPump []).1,
          (runPump []).2)) :=
  ⟨by decide, blank_line_no_frame "   " (Except.ok ()) [] (by decide)⟩

/-- C10: a local line with non-empty trimmed form is sent as a `Text` frame
carrying the original line exactly as read — trimming is used only for the
emptiness test, never applied to the payload. -/
theorem text_frame_untrimmed (line : String) (r : Except String Unit)
    (h : trimIsEmpty line = false) :
    (step (PumpEvent.localLine line) r).sends = [Message.Text line] := by
  cases r <;> simp [step, h]

/-- Witness for C10 at the concrete line `" hello "`: the sent payload keeps
the surrounding whitespace. -/
theorem text_frame_untrimmed_witness :
    trimIsEmpty " hello " = false ∧
    (step (PumpEvent.localLine " hello ") (Except.ok ())).sends
      = [Message.Text " hello "] :=
  ⟨by decide, text_frame_untrimmed " hello " (Except.ok ()) (by decide)⟩

/-- C3: over any sequence of local input lines (with all sends succeeding),
the pump's action trace is exactly: observe each line in submission order,
then — when its trimmed form is non-empty — send exactly one `Text` frame
for it, before observing the next line.  Sends and observations interleave
strictly in order, so a line's send completes before any later local input
is observed. -/
theorem local_lines_sent_in_order (lines : List String) :
    runPump (lines.map (fun l => (PumpEvent.localLine l, Except.ok ())))
      = (lines.flatMap (fun l =>
           Action.observe (PumpEvent.localLine l)
             :: (if trimIsEmpty l then [] else [Action.send (Message.Text l)])),
         []) := by
  induction lines with
  | nil => rfl
  | cons l ls ih =>
      cases h : trimIsEmpty l <;> simp [runPump, step, h, ih]

/-- C5: with every setup step succeeding, `run_server` and `run_client`
return `Ok(())` for every possible pump trace — so `main` exits 0; and every
mid-session termination path (inbound `Close`, local-input exhaustion,
local-input read error, receive error, stream end, `Pong`-send failure,
`Text`-send failure) moves the pump to `Terminated`, after which it returns
control to its caller. -/
theorem termination_exits_zero
    (addr : SockAddr) (ipL ipG ipL2 : Except String String) (c : Nat)
    (rest : List (Except String Nat))
    (tr : Nat → List (PumpEvent × Except String Unit))
    (uri hname : String) (p : Option Nat)
    (ctr : List (PumpEvent × Except String Unit))
    (cf : Option CloseFrame) (r : Except String Unit) (d : List Nat)
    (e line : String) (hl : trimIsEmpty line = false) :
    (run_server addr ipL ipG ipL2 ⟨.ok (), .ok (), .ok (), .ok (), .ok ()⟩
        (.ok c :: rest) tr).2.2 = some (.ok ()) ∧
    (run_client uri ⟨.ok ⟨some hname, p⟩, .ok (), .ok (), .ok (), .ok ()⟩
        ctr).2.2 = .ok () ∧
    exitCodeOf (.ok ()) = 0 ∧
    (step (PumpEvent.wsMsg (Message.Close cf)) r).state = PumpState.Terminated ∧
    (step PumpEvent.localEof r).state = PumpState.Terminated ∧
    (step (PumpEvent.localErr e) r).state = PumpState.Terminated ∧
    (step (PumpEvent.wsErr e) r).state = PumpState.Terminated ∧
    (step PumpEvent.wsClosed r).state = PumpState.Terminated ∧
    (step (PumpEvent.wsMsg (Message.Ping d)) (Except.error e)).state
      = PumpState.Terminated ∧
    (step (PumpEvent.localLine line) (Except.error e)).state
      = PumpState.Terminated := by
  refine ⟨rfl, rfl, rfl, ?_, rfl, rfl, rfl, rfl, rfl, ?_⟩
  · cases cf <;> rfl
  · simp [step, hl]

/-- Witness for C5 at concrete inputs: all setup steps succeed, every
termination event yields `Terminated`, and the run results map to exit
code 0. -/
theorem termination_exits_zero_witness :
    trimIsEmpty "x" = false ∧
    ((run_server ⟨"127.0.0.1", 8080⟩ (Except.error "i") (Except.error "i")
        (Except.error "i") ⟨.ok (), .ok (), .ok (), .ok (), .ok ()⟩
        (Except.ok 0 :: []) (fun _ => [])).2.2 = some (Except.ok ()) ∧
     (run_client "wss://a" ⟨.ok ⟨some "a", none⟩, .ok (), .ok (), .ok (), .ok ()⟩
        []).2.2 = Except.ok () ∧
     exitCodeOf (Except.ok ()) = 0 ∧
     (step (PumpEvent.wsMsg (Message.Close none)) (Except.ok ())).state
       = PumpState.Terminated ∧
     (step PumpEvent.localEof (Except.ok ())).state = PumpState.Terminated ∧
     (step (PumpEvent.localErr "b") (Except.ok ())).state
       = PumpState.Terminated ∧
     (step (PumpEvent.wsErr "b") (Except.ok ())).state = PumpState.Terminated ∧
     (step PumpEvent.wsClosed (Except.ok ())).state = PumpState.Terminated ∧
     (step (PumpEvent.wsMsg (Message.Ping [])) (Except.error "b")).state
       = PumpState.Terminated ∧
     (step (PumpEvent.localLine "x") (Except.error "b")).state
       = PumpState.Terminated) :=
  ⟨by decide,
   termination_exits_zero ⟨"127.0.0.1", 8080⟩ (Except.error "i")
     (Except.error "i") (Except.error "i") 0 [] (fun _ => []) "wss://a" "a"
     none [] none (Except.ok ()) [] "b" "x" (by decide)⟩

/-- C6: each setup failure named by the spec — certificate generation, bind,
TCP connect, TLS handshake (either side's), WebSocket handshake (either
side's) — makes the failing function return that error with no later setup
step invoked (and none invoked twice, so no retry), and `main` then exits
non-zero. -/
theorem setup_error_short_circuits
    (addr : SockAddr) (ipL ipG ipL2 : Except String String) (o : ServerSetup)
    (conns : List (Except String Nat))
    (tr : Nat → List (PumpEvent × Except String Unit))
    (uri : String) (co : ClientSetup)
    (ctr : List (PumpEvent × Except String Unit))
    (e : String) (c : Nat) (rest : List (Except String Nat))
    (u : UrlModel) (hname : String) :
    exitCodeOf (Except.error e) ≠ 0 ∧
    (o.certGen = .error e →
      (run_server addr ipL ipG ipL2 o conns tr).2
        = ([SetupStep.certGen], some (.error e))) ∧
    (o.certGen = .ok () → o.singleCert = .ok () → o.bindSock = .error e →
      (run_server addr ipL ipG ipL2 o conns tr).2
        = ([SetupStep.certGen, SetupStep.singleCert, SetupStep.bindSock],
           some (.error e))) ∧
    (o.certGen = .ok () → o.singleCert = .ok () → o.bindSock = .ok () →
      conns = .ok c :: rest → o.tlsAccept = .error e →
      (run_server addr ipL ipG ipL2 o conns tr).2
        = ([SetupStep.certGen, SetupStep.singleCert, SetupStep.bindSock,
            SetupStep.acceptConn, SetupStep.tlsAccept], some (.error e))) ∧
    (o.certGen = .ok () → o.singleCert = .ok () → o.bindSock = .ok () →
      conns = .ok c :: rest → o.tlsAccept = .ok () → o.wsAccept = .error e →
      (run_server addr ipL ipG ipL2 o conns tr).2
        = ([SetupStep.certGen, SetupStep.singleCert, SetupStep.bindSock,
            SetupStep.acceptConn, SetupStep.tlsAccept, SetupStep.wsAccept],
           some (.error e))) ∧
    (co.urlParse = .ok u → u.host = some hname → co.tcpConnect = .error e →
      (run_client uri co ctr).2
        = ([SetupStep.urlParse, SetupStep.hostExtract, SetupStep.tcpConnect],
           .error e)) ∧
    (co.urlParse = .ok u → u.host = some hname → co.tcpConnect = .ok () →
      co.srvName = .ok () → co.tlsConnect = .error e →
      (run_client uri co ctr).2
        = ([SetupStep.urlParse, SetupStep.hostExtract, SetupStep.tcpConnect,
            SetupStep.serverName, SetupStep.tlsConnect], .error e)) ∧
    (co.urlParse = .ok u → u.host = some hname → co.tcpConnect = .ok () →
      co.srvName = .ok () → co.tlsConnect = .ok () → co.wsConnect = .error e →
      (run_client uri co ctr).2
        = ([SetupStep.urlParse, SetupStep.hostExtract, SetupStep.tcpConnect,
            SetupStep.serverName, SetupStep.tlsConnect, SetupStep.wsConnect],
           .error e)) := by
  refine ⟨by simp [exitCodeOf], ?_, ?_, ?_, ?_, ?_, ?_, ?_⟩
  · intro h1
    simp [run_server, h1]
  · intro h1 h2 h3
    simp [run_server, h1, h2, h3]
  · intro h1 h2 h3 h4 h5
    simp [run_server, h1, h2, h3, h4, h5]
  · intro h1 h2 h3 h4 h5 h6
    simp [run_server, h1, h2, h3, h4, h5, h6]
  · intro h1 h2 h3
    simp [run_client, h1, h2, h3]
  · intro h1 h2 h3 h4 h5
    simp [run_client, h1, h2, h3, h4, h5]
  · intro h1 h2 h3 h4 h5 h6
    simp [run_client, h1, h2, h3, h4, h5, h6]

/-- Witness for C6: a concrete certificate-generation failure stops the
server run at its first setup step with that error, and a concrete TCP
connect failure stops the client run at the connect step; both map to a
non-zero exit. -/
theorem setup_error_short_circuits_witness :
    (run_server ⟨"127.0.0.1", 8080⟩ (Except.ok "i") (Except.ok "g")
        (Except.ok "i") ⟨.error "boom", .ok (), .ok (), .ok (), .ok ()⟩ []
        (fun _ => [])).2
      = ([SetupStep.certGen], some (Except.error "boom")) ∧
    (run_client "wss://a" ⟨.ok ⟨some "a", none⟩, .error "boom", .ok (), .ok (),
        .ok ()⟩ []).2
      = ([SetupStep.urlParse, SetupStep.hostExtract, SetupStep.tcpConnect],
         Except.error "boom") ∧
    exitCodeOf (Except.error "boom") ≠ 0 :=
  ⟨(setup_error_short_circuits ⟨"127.0.0.1", 8080⟩ (Except.ok "i")
      (Except.ok "g") (Except.ok "i")
      ⟨.error "boom", .ok (), .ok (), .ok (), .ok ()⟩ [] (fun _ => []) "wss://a"
      ⟨.ok ⟨some "a", none⟩, .error "boom", .ok (), .ok (), .ok ()⟩ [] "boom" 0
      [] ⟨some "a", none⟩ "a").2.1 rfl,
   (setup_error_short_circuits ⟨"127.0.0.1", 8080⟩ (Except.ok "i")
      (Except.ok "g") (Except.ok "i")
      ⟨.error "boom", .ok (), .ok (), .ok (), .ok ()⟩ [] (fun _ => []) "wss://a"
      ⟨.ok ⟨some "a", none⟩, .error "boom", .ok (), .ok (), .ok ()⟩ [] "boom" 0
      [] ⟨some "a", none⟩ "a").2.2.2.2.2.1 rfl rfl rfl,
   (setup_error_short_circuits ⟨"127.0.0.1", 8080⟩ (Except.ok "i")
      (Except.ok "g") (Except.ok "i")
      ⟨.error "boom", .ok (), .ok (), .ok (), .ok ()⟩ [] (fun _ => []) "wss://a"
      ⟨.ok ⟨some "a", none⟩, .error "boom", .ok (), .ok (), .ok ()⟩ [] "boom" 0
      [] ⟨some "a", none⟩ "a").1⟩

/-- C8: `run_server`'s behaviour is identical whatever connection attempts
queue up behind the first one — a second attempt is never examined and
cannot alter the session — and the accept operation appears at most once in
every run's step list, exactly once in a completed run. -/
theorem single_accept_only
    (addr : SockAddr) (ipL ipG ipL2 : Except String String) (o : ServerSetup)
    (c : Except String Nat) (rest rest' conns : List (Except String Nat))
    (tr : Nat → List (PumpEvent × Except String Unit)) (c0 : Nat) :
    run_server addr ipL ipG ipL2 o (c :: rest) tr
      = run_server addr ipL ipG ipL2 o (c :: rest') tr ∧
    ((run_server addr ipL ipG ipL2 o conns tr).2.1).count SetupStep.acceptConn
      ≤ 1 ∧
    ((run_server addr ipL ipG ipL2 ⟨.ok (), .ok (), .ok (), .ok (), .ok ()⟩
        (.ok c0 :: rest) tr).2.1).count SetupStep.acceptConn = 1 := by
  obtain ⟨cg, sc, bd, ta, wa⟩ := o
  refine ⟨?_, ?_, by simp [run_server]⟩
  · cases cg <;> cases sc <;> cases bd <;> cases c <;> cases ta <;> cases wa <;>
      rfl
  · rcases conns with _ | ⟨_ | _, _⟩ <;> cases cg <;> cases sc <;> cases bd <;>
      cases ta <;> cases wa <;> simp [run_server]

/-- C9: the step list and the returned result of `run_server` are the same
for every outcome of local-IP and global-IP discovery (only the printed
report differs), and IP-discovery failures still let a fully successful
setup reach the pump and return `Ok(())`. -/
theorem ip_discovery_display_only
    (addr : SockAddr) (ipL ipL' ipG ipG' ipL2 ipL2' : Except String String)
    (o : ServerSetup) (conns : List (Except String Nat))
    (tr : Nat → List (PumpEvent × Except String Unit)) (c0 : Nat)
    (rest : List (Except String Nat)) :
    (run_server addr ipL ipG ipL2 o conns tr).2
      = (run_server addr ipL' ipG' ipL2' o conns tr).2 ∧
    (run_server addr ipL ipG ipL2 ⟨.ok (), .ok (), .ok (), .ok (), .ok ()⟩
        (.ok c0 :: rest) tr).2.2 = some (.ok ()) := by
  obtain ⟨cg, sc, bd, ta, wa⟩ := o
  refine ⟨?_, rfl⟩
  rcases conns with _ | ⟨_ | _, _⟩ <;> cases cg <;> cases sc <;> cases bd <;>
    cases ta <;> cases wa <;> rfl

end P2PChat
